import Mathlib

/-!
# Verification of the MARS `Simulator` core (src/sim/src/core/Simulator.h)

A shallow embedding of the `mars::sim::Simulator` class and its public
state-transition entry points, together with theorems settling the spec
claims about the run/stop/step state machine, the request queue, and the
fault flag.

The header gives inline bodies for `StartSimulation` and `StopSimulation`;
those two definitions are translated verbatim from the source.  The other
operations (`singleStep`, the `run` loop body, `handleError`, `hasSimFault`,
`loadScene`, `processRequests`) are only declared in the header, so they are
modelled from the spec; every such definition is marked in its doc comment.

Each public operation that can signal the stepping wait condition returns,
besides the successor state, a `Bool` recording whether `stepping_wc.wakeAll()`
was invoked during the call.
-/

namespace MarsSim

/-- The `Simulator::Status` enumeration:
`enum Status { UNKNOWN = -1, STOPPED = 0, RUNNING = 1, STOPPING = 2, STEPPING = 3 }`. -/
inductive Status where
  | UNKNOWN
  | STOPPED
  | RUNNING
  | STOPPING
  | STEPPING
  deriving DecidableEq, Repr

/-- The numeric value of each enumerator in the source. -/
def Status.toInt : Status → Int
  | .UNKNOWN => -1
  | .STOPPED => 0
  | .RUNNING => 1
  | .STOPPING => 2
  | .STEPPING => 3

/-- The private `Simulator::LoadOptions` struct:
`{ std::string filename; std::string robotname; bool wasRunning; }`. -/
structure LoadOptions where
  filename : String
  robotname : String
  wasRunning : Bool
  deriving DecidableEq, Repr

/-- A three-component vector standing in for `utils::Vector` (the gravity
field); only its identity matters for the frame claims. -/
structure Vec3 where
  x : Int
  y : Int
  z : Int
  deriving DecidableEq, Repr

/-- The mutable member state of `mars::sim::Simulator` that the claims are
about: the status, the fault and drawing flags, the cached load requests, the
four plugin lists (plugins abstracted to identifiers), gravity, the step size
`calc_ms`, and the remaining boolean flags of the class. -/
structure Simulator where
  simulationStatus : Status
  sim_fault : Bool
  exit_sim : Bool
  allow_draw : Bool
  sync_graphics : Bool
  b_SceneChanged : Bool
  reloadSim : Bool
  kill_sim : Bool
  my_real_time : Bool
  fast_step : Bool
  erased_active : Bool
  filesToLoad : List LoadOptions
  allPlugins : List Nat
  newPlugins : List Nat
  activePlugins : List Nat
  guiPlugins : List Nat
  gravity : Vec3
  calc_ms : Int
  deriving DecidableEq, Repr

/-- `Simulator::StartSimulation` (inline in the header):
lock `stepping_mutex`; `simulationStatus = RUNNING`; `stepping_wc.wakeAll()`;
unlock.  The returned `Bool` records that `wakeAll` was invoked. -/
def Simulator.StartSimulation (s : Simulator) : Simulator × Bool :=
  ({ s with simulationStatus := Status.RUNNING }, true)

/-- `Simulator::StopSimulation` (inline in the header):
lock `stepping_mutex`; `if (simulationStatus != STOPPED) simulationStatus =
STOPPING;` unlock.  The `stepping_wc.wakeAll()` line in this body is
commented out in the source, so no wake is ever issued here. -/
def Simulator.StopSimulation (s : Simulator) : Simulator × Bool :=
  if s.simulationStatus ≠ Status.STOPPED then
    ({ s with simulationStatus := Status.STOPPING }, false)
  else
    (s, false)

/-- Modelled from the spec: the body of `Simulator::singleStep` is not in the
header.  Spec section 4.1: `STOPPED/STOPPING → STEPPING on singleStep` and
`singleStep is rejected (no-op) while RUNNING`; the stepping wait condition
exists `to prevent active waiting for an single step or start event`, so the
step request signals it to unpark the simulation thread. -/
def Simulator.singleStep (s : Simulator) : Simulator × Bool :=
  match s.simulationStatus with
  | Status.STOPPED => ({ s with simulationStatus := Status.STEPPING }, true)
  | Status.STOPPING => ({ s with simulationStatus := Status.STEPPING }, true)
  | _ => (s, false)

/-- Modelled from the spec: the body of `Simulator::hasSimFault` is not in the
header.  Spec section 7: a persistent `simFault` flag is `readable via
hasSimFault()`; it is a pure status query. -/
def Simulator.hasSimFault (s : Simulator) : Bool :=
  s.sim_fault

/-- Modelled from the spec: the body of `Simulator::handleError` is not in the
header.  Spec section 7: a `PhysicsError` `surfaces a persistent simFault
flag readable via hasSimFault()`; the loop `continues ticking (it does not
auto-stop)`, so the error sets only the fault flag. -/
def Simulator.handleError (s : Simulator) : Simulator :=
  { s with sim_fault := true }

/-- Modelled from the spec: the body of `Simulator::loadScene` is not in the
header.  Spec sections 3 and 4.2: a `LoadRequest` `{filename, robot-name,
previously-running flag}` is created by any caller of `loadScene` and
appended to the queue (`filesToLoad`) in arrival order under a short lock. -/
def Simulator.loadScene (s : Simulator) (filename robotname : String)
    (wasrunning : Bool) : Simulator :=
  { s with filesToLoad := s.filesToLoad ++ [⟨filename, robotname, wasrunning⟩] }

/-- Modelled from the spec: the body of `Simulator::processRequests` is not in
the header.  The header comment says the cached requests `has to be handelt
by this methos, which is called by this (run())`; spec section 4.2: the drain
`processes all currently queued requests in FIFO arrival order` and they are
`consumed and discarded ... exactly once`.  Returns the drained state and the
list of requests executed, in execution order. -/
def Simulator.processRequests (s : Simulator) : Simulator × List LoadOptions :=
  ({ s with filesToLoad := [] }, s.filesToLoad)

/-- Modelled from the spec: the body of `Simulator::run` is not in the header.
One iteration of the simulation loop (spec sections 2 and 4.1): it drains the
request queue strictly before touching physics, then advances the physics
world by one step when `RUNNING`, by exactly one step when `STEPPING` —
reverting the status to `STOPPED` — and moves `STOPPING` to `STOPPED`
without stepping; in the remaining states it is idle.  Returns the successor
state, the requests executed this tick, and the number of physics steps. -/
def Simulator.loopTick (s : Simulator) : Simulator × List LoadOptions × Nat :=
  match s.processRequests with
  | (s1, reqs) =>
    match s1.simulationStatus with
    | Status.RUNNING => (s1, reqs, 1)
    | Status.STEPPING => ({ s1 with simulationStatus := Status.STOPPED }, reqs, 1)
    | Status.STOPPING => ({ s1 with simulationStatus := Status.STOPPED }, reqs, 0)
    | _ => (s1, reqs, 0)

/-- The public state-transition entry points callable from external threads. -/
inductive SimCall where
  | start
  | stop
  | step
  deriving DecidableEq, Repr

/-- Dispatch one public call on the simulator state. -/
def Simulator.applyCall (s : Simulator) : SimCall → Simulator × Bool
  | SimCall.start => s.StartSimulation
  | SimCall.stop => s.StopSimulation
  | SimCall.step => s.singleStep

/-- The statuses observed strictly after each call of a call sequence. -/
def Simulator.statusRest : Simulator → List SimCall → List Status
  | _, [] => []
  | s, c :: cs =>
    (s.applyCall c).1.simulationStatus :: Simulator.statusRest (s.applyCall c).1 cs

/-- The full observed status sequence of a call sequence: the initial status
followed by the status after each call. -/
def Simulator.statusTrace (s : Simulator) (cs : List SimCall) : List Status :=
  s.simulationStatus :: s.statusRest cs

/-- The adjacent pairs (the transitions, including stutters) of a status
sequence. -/
def tracePairs : List Status → List (Status × Status)
  | a :: b :: t => (a, b) :: tracePairs (b :: t)
  | _ => []

/-- The transition edges of the state machine of spec section 4.1, restricted
to what a single public call may produce (loop-boundary and shutdown edges
excluded), plus stutters: `STOPPED → RUNNING` on start, non-`STOPPED` →
`STOPPING` on stop, `STOPPED/STOPPING → STEPPING` on a single step. -/
def isSpecCallEdge (a b : Status) : Bool :=
  a = b ||
  (a = Status.STOPPED && b = Status.RUNNING) ||
  (a = Status.RUNNING && b = Status.STOPPING) ||
  ((a = Status.STOPPED || a = Status.STOPPING) && b = Status.STEPPING)

/-- The transition edges actually produced by the public calls in the source:
as `isSpecCallEdge`, except that `StartSimulation` moves every state —
including `STOPPING`, `STEPPING` and `UNKNOWN` — to `RUNNING`, and
`StopSimulation` moves every non-`STOPPED` state (also `STEPPING` and
`UNKNOWN`) to `STOPPING`. -/
def isCallEdge (a b : Status) : Bool :=
  a = b ||
  b = Status.RUNNING ||
  (a ≠ Status.STOPPED && b = Status.STOPPING) ||
  ((a = Status.STOPPED || a = Status.STOPPING) && b = Status.STEPPING)

/-- A concrete simulator state in the `STOPPED` status (the initial status of
the state machine of spec section 4.1). -/
def sampleStopped : Simulator :=
  { simulationStatus := Status.STOPPED
    sim_fault := false
    exit_sim := false
    allow_draw := true
    sync_graphics := false
    b_SceneChanged := false
    reloadSim := false
    kill_sim := false
    my_real_time := false
    fast_step := false
    erased_active := false
    filesToLoad := []
    allPlugins := []
    newPlugins := []
    activePlugins := []
    guiPlugins := []
    gravity := ⟨0, 0, -981⟩
    calc_ms := 10 }

/-- Every call produces a transition in the edge set `isCallEdge`. -/
theorem applyCall_edge (s : Simulator) (c : SimCall) :
    isCallEdge s.simulationStatus (s.applyCall c).1.simulationStatus = true := by
  cases c <;> cases h : s.simulationStatus <;>
    simp [Simulator.applyCall, Simulator.StartSimulation, Simulator.StopSimulation,
      Simulator.singleStep, isCallEdge, h]

/-- Every adjacent pair of a status trace is in the edge set `isCallEdge`. -/
theorem statusTrace_pairs_edge (s : Simulator) (cs : List SimCall) :
    ∀ p ∈ tracePairs (s.statusTrace cs), isCallEdge p.1 p.2 = true := by
  induction cs generalizing s with
  | nil =>
    intro p hp
    simp [Simulator.statusTrace, Simulator.statusRest, tracePairs] at hp
  | cons c cs ih =>
    intro p hp
    have hrw : s.statusTrace (c :: cs) =
        s.simulationStatus :: (s.applyCall c).1.statusTrace cs := by
      simp [Simulator.statusTrace, Simulator.statusRest]
    rw [hrw] at hp
    have hhead : (s.applyCall c).1.statusTrace cs =
        (s.applyCall c).1.simulationStatus :: (s.applyCall c).1.statusRest cs := rfl
    rw [hhead] at hp
    simp only [tracePairs, List.mem_cons] at hp
    rcases hp with hp | hp
    · subst hp
      exact applyCall_edge s c
    · exact ih (s.applyCall c).1 p (by rw [Simulator.statusTrace, ← hhead] at *; exact hp)

end MarsSim

namespace MarsSim

/-- C1 counterexample: starting from a `STOPPED` state, the call sequence
start, stop, start yields the status trace `STOPPED, RUNNING, STOPPING,
RUNNING`; its last transition `STOPPING → RUNNING` is produced by a call, yet
it is not an edge of the section-4.1 machine, and the claim says no call
transitions `STOPPING` to `RUNNING`. -/
theorem stopping_to_running_occurs :
    sampleStopped.statusTrace [SimCall.start, SimCall.stop, SimCall.start] =
      [Status.STOPPED, Status.RUNNING, Status.STOPPING, Status.RUNNING] ∧
    (Status.STOPPING, Status.RUNNING) ∈
      tracePairs (sampleStopped.statusTrace
        [SimCall.start, SimCall.stop, SimCall.start]) ∧
    isSpecCallEdge Status.STOPPING Status.RUNNING = false := by
  decide

/-- C1 (amended): every transition of `simulationStatus` produced by a
sequence of StartSimulation/StopSimulation/singleStep calls is an edge of the
section-4.1 machine extended with StartSimulation's unconditional transition
to `RUNNING` and StopSimulation's transition to `STOPPING` from every
non-`STOPPED` state; in particular no call ever transitions the status
directly from `STOPPED` to `STOPPING`. -/
theorem statusTrace_respects_call_machine (s : Simulator) (cs : List SimCall) :
    (∀ p ∈ tracePairs (s.statusTrace cs), isCallEdge p.1 p.2 = true) ∧
    (Status.STOPPED, Status.STOPPING) ∉ tracePairs (s.statusTrace cs) := by
  refine ⟨statusTrace_pairs_edge s cs, ?_⟩
  intro hmem
  have h := statusTrace_pairs_edge s cs _ hmem
  simp [isCallEdge] at h

/-- C1 (amended) witness at a concrete trace. -/
theorem statusTrace_respects_call_machine_witness :
    (∀ p ∈ tracePairs (sampleStopped.statusTrace
        [SimCall.start, SimCall.stop, SimCall.start, SimCall.step]),
      isCallEdge p.1 p.2 = true) ∧
    (Status.STOPPED, Status.STOPPING) ∉ tracePairs (sampleStopped.statusTrace
        [SimCall.start, SimCall.stop, SimCall.start, SimCall.step]) :=
  statusTrace_respects_call_machine sampleStopped
    [SimCall.start, SimCall.stop, SimCall.start, SimCall.step]

/-- C2: when `simulationStatus` is `STOPPED`, `StartSimulation` sets the
status to `RUNNING` and invokes `wakeAll` on the stepping wait condition,
waking every parked thread. -/
theorem startSimulation_from_stopped (s : Simulator)
    (_h : s.simulationStatus = Status.STOPPED) :
    (s.StartSimulation).1.simulationStatus = Status.RUNNING ∧
    (s.StartSimulation).2 = true := by
  exact ⟨rfl, rfl⟩

/-- C2 witness at a concrete `STOPPED` state. -/
theorem startSimulation_from_stopped_witness :
    (sampleStopped.StartSimulation).1.simulationStatus = Status.RUNNING ∧
    (sampleStopped.StartSimulation).2 = true :=
  startSimulation_from_stopped sampleStopped (by decide)

/-- C3: `StartSimulation` on a state already `RUNNING` and `StopSimulation`
on a state already `STOPPED` leave the state unchanged, and each call is
idempotent: applying it twice equals applying it once. -/
theorem start_stop_idempotent (s : Simulator) :
    (({ s with simulationStatus := Status.RUNNING } : Simulator).StartSimulation).1 =
      { s with simulationStatus := Status.RUNNING } ∧
    (({ s with simulationStatus := Status.STOPPED } : Simulator).StopSimulation).1 =
      { s with simulationStatus := Status.STOPPED } ∧
    ((s.StartSimulation).1.StartSimulation).1 = (s.StartSimulation).1 ∧
    ((s.StopSimulation).1.StopSimulation).1 = (s.StopSimulation).1 := by
  refine ⟨rfl, by simp [Simulator.StopSimulation], rfl, ?_⟩
  by_cases h : s.simulationStatus = Status.STOPPED <;>
    simp [Simulator.StopSimulation, h]

/-- C4: `singleStep` on a `STOPPED` state moves to `STEPPING`, and the next
loop tick performs exactly one physics step and returns the status to
`STOPPED`; `singleStep` on a `RUNNING` state is a no-op. -/
theorem singleStep_stopped_one_step (s : Simulator) :
    ((({ s with simulationStatus := Status.STOPPED } : Simulator).singleStep).1.loopTick).2.2 = 1 ∧
    ((({ s with simulationStatus := Status.STOPPED } : Simulator).singleStep).1.loopTick).1.simulationStatus =
      Status.STOPPED ∧
    (({ s with simulationStatus := Status.RUNNING } : Simulator).singleStep).1 =
      { s with simulationStatus := Status.RUNNING } := by
  refine ⟨rfl, rfl, rfl⟩

/-- C5: whenever the simulation thread may be parked on the stepping wait
condition (it parks only while `STOPPED`), any public call that changes the
status also signals the wait condition. -/
theorem status_change_wakes (s : Simulator) (c : SimCall)
    (hparked : s.simulationStatus = Status.STOPPED)
    (hchange : (s.applyCall c).1.simulationStatus ≠ s.simulationStatus) :
    (s.applyCall c).2 = true := by
  cases c
  · rfl
  · exfalso
    apply hchange
    simp [Simulator.applyCall, Simulator.StopSimulation, hparked]
  · simp [Simulator.applyCall, Simulator.singleStep, hparked]

/-- C5 witness: a start call from a parked `STOPPED` state changes the status
and wakes. -/
theorem status_change_wakes_witness :
    (sampleStopped.applyCall SimCall.start).2 = true :=
  status_change_wakes sampleStopped SimCall.start (by decide) (by decide)

/-- C6: `loadScene` appends its request at the tail of the queue (FIFO
arrival order), and a loop tick drains exactly the queued requests, in queue
order, leaving the queue empty — each request is consumed exactly once,
inside the tick before the physics step. -/
theorem loadScene_fifo_drain (s : Simulator) (fn rn : String) (wr : Bool) :
    (s.loadScene fn rn wr).filesToLoad = s.filesToLoad ++ [⟨fn, rn, wr⟩] ∧
    (s.loopTick).2.1 = s.filesToLoad ∧
    (s.loopTick).1.filesToLoad = [] := by
  refine ⟨rfl, ?_, ?_⟩ <;>
    cases h : s.simulationStatus <;>
      simp [Simulator.loopTick, Simulator.processRequests, h]

/-- C7: after `handleError`, `hasSimFault` reports `true`, the status is
unchanged by the error, and a loop tick on a faulted `RUNNING` state still
performs its physics step (the loop does not stop itself). -/
theorem handleError_sets_fault (s : Simulator) :
    (s.handleError).hasSimFault = true ∧
    (s.handleError).simulationStatus = s.simulationStatus ∧
    (({ s with simulationStatus := Status.RUNNING } : Simulator).handleError.loopTick).2.2 = 1 := by
  exact ⟨rfl, rfl, rfl⟩

/-- C8: `StartSimulation` sets the status to `RUNNING` unconditionally, from
every prior state; in particular a start issued while `STOPPING` cancels the
pending stop and resumes running. -/
theorem startSimulation_unconditional (s : Simulator) :
    (s.StartSimulation).1.simulationStatus = Status.RUNNING := rfl

/-- C9: `StopSimulation` sets the status to `STOPPING` from every non-`STOPPED`
state and is a no-op on a `STOPPED` state; it never writes `STOPPED` itself,
so after the call the status is `STOPPING` or still `STOPPED`. -/
theorem stopSimulation_cases (s : Simulator) :
    ((s.StopSimulation).1.simulationStatus = Status.STOPPING ∧
        s.simulationStatus ≠ Status.STOPPED ∨
      (s.StopSimulation).1 = s ∧ s.simulationStatus = Status.STOPPED) ∧
    ((s.StopSimulation).1.simulationStatus = Status.STOPPING ∨
      (s.StopSimulation).1.simulationStatus = Status.STOPPED) := by
  by_cases h : s.simulationStatus = Status.STOPPED
  · refine ⟨Or.inr ⟨by simp [Simulator.StopSimulation, h], h⟩, Or.inr ?_⟩
    simp [Simulator.StopSimulation, h]
  · refine ⟨Or.inl ⟨by simp [Simulator.StopSimulation, h], h⟩, Or.inl ?_⟩
    simp [Simulator.StopSimulation, h]

/-- C9 witness at a concrete `STOPPED` state. -/
theorem stopSimulation_cases_witness :
    ((sampleStopped.StopSimulation).1.simulationStatus = Status.STOPPING ∧
        sampleStopped.simulationStatus ≠ Status.STOPPED ∨
      (sampleStopped.StopSimulation).1 = sampleStopped ∧
        sampleStopped.simulationStatus = Status.STOPPED) ∧
    ((sampleStopped.StopSimulation).1.simulationStatus = Status.STOPPING ∨
      (sampleStopped.StopSimulation).1.simulationStatus = Status.STOPPED) :=
  stopSimulation_cases sampleStopped

/-- C10: `StartSimulation` and `StopSimulation` modify only
`simulationStatus`: every other member — the fault, drawing, sync and loop
flags, the request queue, the four plugin lists, gravity and `calc_ms` — is
unchanged by either call. -/
theorem start_stop_frame (s : Simulator) :
    ((s.StartSimulation).1.sim_fault = s.sim_fault ∧
      (s.StartSimulation).1.exit_sim = s.exit_sim ∧
      (s.StartSimulation).1.allow_draw = s.allow_draw ∧
      (s.StartSimulation).1.sync_graphics = s.sync_graphics ∧
      (s.StartSimulation).1.b_SceneChanged = s.b_SceneChanged ∧
      (s.StartSimulation).1.reloadSim = s.reloadSim ∧
      (s.StartSimulation).1.kill_sim = s.kill_sim ∧
      (s.StartSimulation).1.my_real_time = s.my_real_time ∧
      (s.StartSimulation).1.fast_step = s.fast_step ∧
      (s.StartSimulation).1.erased_active = s.erased_active ∧
      (s.StartSimulation).1.filesToLoad = s.filesToLoad ∧
      (s.StartSimulation).1.allPlugins = s.allPlugins ∧
      (s.StartSimulation).1.newPlugins = s.newPlugins ∧
      (s.StartSimulation).1.activePlugins = s.activePlugins ∧
      (s.StartSimulation).1.guiPlugins = s.guiPlugins ∧
      (s.StartSimulation).1.gravity = s.gravity ∧
      (s.StartSimulation).1.calc_ms = s.calc_ms) ∧
    ((s.StopSimulation).1.sim_fault = s.sim_fault ∧
      (s.StopSimulation).1.exit_sim = s.exit_sim ∧
      (s.StopSimulation).1.allow_draw = s.allow_draw ∧
      (s.StopSimulation).1.sync_graphics = s.sync_graphics ∧
      (s.StopSimulation).1.b_SceneChanged = s.b_SceneChanged ∧
      (s.StopSimulation).1.reloadSim = s.reloadSim ∧
      (s.StopSimulation).1.kill_sim = s.kill_sim ∧
      (s.StopSimulation).1.my_real_time = s.my_real_time ∧
      (s.StopSimulation).1.fast_step = s.fast_step ∧
      (s.StopSimulation).1.erased_active = s.erased_active ∧
      (s.StopSimulation).1.filesToLoad = s.filesToLoad ∧
      (s.StopSimulation).1.allPlugins = s.allPlugins ∧
      (s.StopSimulation).1.newPlugins = s.newPlugins ∧
      (s.StopSimulation).1.activePlugins = s.activePlugins ∧
      (s.StopSimulation).1.guiPlugins = s.guiPlugins ∧
      (s.StopSimulation).1.gravity = s.gravity ∧
      (s.StopSimulation).1.calc_ms = s.calc_ms) := by
  constructor
  · exact ⟨rfl, rfl, rfl, rfl, rfl, rfl, rfl, rfl, rfl, rfl, rfl, rfl, rfl,
      rfl, rfl, rfl, rfl⟩
  · by_cases h : s.simulationStatus = Status.STOPPED <;>
      simp [Simulator.StopSimulation, h]

end MarsSim
